import Mathlib

set_option maxRecDepth 40000

/-!
Verification of the combo/XP core of the nvim-power-mode extension.

The development shallowly embeds the three pieces of core logic:
  * `XPState` with `XPState.addXp` — the `XPService` class
    (persistence is abstracted away; the in-memory mirror is the state),
  * `ComboState` with `registerEvent` / `comboTimeoutCallback` — the
    `ComboTracker` class together with the `ComboMeter` fields it drives
    (`initialPowermodeCombo`); the single pending `setTimeout` handle is
    abstracted to a Boolean `timerPending` (true while a scheduled timer
    has neither fired nor been cleared),
  * `RState` with `handleTextDocumentChange` — the `RidiculousTracker`
    event classification and effect dispatch; outbound side effects are
    reified as a list of `Intent` values.

JavaScript numbers are modelled as `Int` (all quantities the code keeps in
them are integers) and the pitch computation as `ℚ` (every value it takes in
the scenarios below is produced exactly by the double-precision code path).
Strings are embedded as their character lists.
-/

/-- JavaScript's Math.round(m / 10) for an integer m: floor of m/10 + 1/2,
so ties round toward positive infinity, exactly as Math.round does. -/
def jsRoundDiv10 (m : Int) : Int := (m + 5).fdiv 10

/-- JavaScript's Math.round on a rational: floor(q + 1/2). -/
def jsRound (q : ℚ) : Int := ⌊q + 1 / 2⌋

/-- In-memory state of the XPService class. -/
structure XPState where
  baseXp : Int
  xp : Int
  level : Int
  xpNextAbs : Int
  xpLevelStart : Int
deriving DecidableEq, Repr

/-- The XPService constructor on empty storage: xp 0, level 1,
xpNextAbs 2*baseXp, followed by the monotonicity correction the
constructor applies when the stored target is below the stored xp. -/
def XPState.fresh (baseXp : Int) : XPState :=
  let xp : Int := 0
  let level : Int := 1
  let next0 : Int := 2 * baseXp
  let next : Int :=
    if next0 < xp then xp + jsRoundDiv10 (baseXp * level) * 10 else next0
  { baseXp := baseXp, xp := xp, level := level, xpNextAbs := next,
    xpLevelStart := 0 }

/-- XPService.addXp: add n to xp; on reaching the absolute target, bump the
level, record the start of the new level and set the next absolute target to
xp + Math.round(baseXp * level / 10) * 10 with the incremented level.
Returns the new state and the leveledUp flag. -/
def XPState.addXp (s : XPState) (n : Int) : XPState × Bool :=
  let xp := s.xp + n
  if s.xpNextAbs ≤ xp then
    let level := s.level + 1
    ({ s with xp := xp, level := level, xpLevelStart := xp,
              xpNextAbs := xp + jsRoundDiv10 (s.baseXp * level) * 10 }, true)
  else
    ({ s with xp := xp }, false)

/-- XPService.reset. -/
def XPState.reset (s : XPState) : XPState :=
  { s with level := 1, xp := 0, xpLevelStart := 0, xpNextAbs := 2 * s.baseXp }

/-- addXp 1 iterated k times; the Bool is the value returned by the last
call (false when k = 0). -/
def XPState.addXpTimes (s : XPState) : Nat → XPState × Bool
  | 0 => (s, false)
  | k + 1 => ((s.addXpTimes k).1).addXp 1

/-- A state with baseXp 0 whose absolute target coincides with its xp; used
to exhibit a call that meets the freshly recomputed target. -/
def zeroBaseXPState : XPState :=
  { baseXp := 0, xp := 0, level := 1, xpNextAbs := 0, xpLevelStart := 0 }

/-- Merged state of ComboTracker and the ComboMeter fields it drives.
currentCombo and isPowermodeActive are the ComboTracker fields;
initialPowermodeCombo is the ComboMeter field set by onPowermodeStart and
cleared by onPowermodeStop; timerPending abstracts the comboTimeoutHandle:
true while a scheduled decay timer has neither fired nor been cleared. -/
structure ComboState where
  currentCombo : Nat
  timerPending : Bool
  isPowermodeActive : Bool
  initialPowermodeCombo : Nat
deriving DecidableEq, Repr

/-- The state a freshly constructed ComboTracker starts in. -/
def comboInit : ComboState :=
  { currentCombo := 0, timerPending := false, isPowermodeActive := false,
    initialPowermodeCombo := 0 }

/-- The body of ComboTracker.handleTextChange past the read-only guard:
increment the combo, activate power mode when inactive and at or past the
threshold (recording the activation combo via ComboMeter.onPowermodeStart),
and rearm the single decay timer. -/
def registerEvent (powermodeThreshold : Nat) (s : ComboState) : ComboState :=
  if !s.isPowermodeActive && decide (powermodeThreshold ≤ s.currentCombo + 1) then
    { currentCombo := s.currentCombo + 1, timerPending := true,
      isPowermodeActive := true,
      initialPowermodeCombo := s.currentCombo + 1 }
  else
    { s with currentCombo := s.currentCombo + 1, timerPending := true }

/-- The decay-timer callback of ComboTracker.handleTextChange: when power
mode is active, ComboMeter.onPowermodeStop clears the flag and the recorded
activation combo; ComboMeter.onComboStop runs and the combo is reset to 0.
The firing consumes the pending timer. -/
def comboTimeoutCallback (s : ComboState) : ComboState :=
  if s.isPowermodeActive then
    { s with isPowermodeActive := false, initialPowermodeCombo := 0,
             currentCombo := 0, timerPending := false }
  else
    { s with currentCombo := 0, timerPending := false }

/-- Whether the first list starts with the second. Strings are embedded as
their character lists, so this is String.startsWith. -/
def listStartsWith : List Char → List Char → Bool
  | _, [] => true
  | [], _ :: _ => false
  | a :: as, b :: bs => a == b && listStartsWith as bs

/-- ComboTracker.isReadOnlyEditor: the document URI scheme matches the
anchored pattern (output|debug|vscode-.*), i.e. it starts with "output",
"debug" or "vscode-". -/
def isReadOnlyScheme (scheme : List Char) : Bool :=
  listStartsWith scheme "output".toList ||
    listStartsWith scheme "debug".toList ||
    listStartsWith scheme "vscode-".toList

/-- Calls the ComboMeter makes during one handleTextChange. -/
inductive ComboEffect where
  | powermodeStart (combo : Nat)
  | updateCombo (combo : Nat) (isPowermodeActive : Bool)
deriving DecidableEq, Repr

/-- ComboTracker.handleTextChange for an event whose active editor has the
given document scheme: read-only schemes are ignored before any mutation;
otherwise the combo advances and the meter receives onPowermodeStart (on
activation) and updateCombo. -/
def handleTextChange (powermodeThreshold : Nat) (scheme : List Char)
    (s : ComboState) : ComboState × List ComboEffect :=
  if isReadOnlyScheme scheme then (s, [])
  else
    let s' := registerEvent powermodeThreshold s
    let started :=
      if !s.isPowermodeActive && s'.isPowermodeActive then
        [ComboEffect.powermodeStart s'.currentCombo]
      else []
    (s', started ++ [ComboEffect.updateCombo s'.currentCombo s'.isPowermodeActive])

/-- The states a ComboTracker can reach through qualifying text-change
events and decay-timer firings; the timer can only fire while pending. -/
inductive ComboReach (powermodeThreshold : Nat) : ComboState → Prop
  | init : ComboReach powermodeThreshold comboInit
  | event {s : ComboState} : ComboReach powermodeThreshold s →
      ComboReach powermodeThreshold (registerEvent powermodeThreshold s)
  | timeout {s : ComboState} : ComboReach powermodeThreshold s →
      s.timerPending = true →
      ComboReach powermodeThreshold (comboTimeoutCallback s)

/-- k qualifying events in a row from the initial state, no timer firing. -/
def runEvents (powermodeThreshold : Nat) : Nat → ComboState
  | 0 => comboInit
  | k + 1 => registerEvent powermodeThreshold (runEvents powermodeThreshold k)

/-- One timed qualifying event arriving g milliseconds after the previous
one: the decay timer (armed for comboTimeout * 1000 ms) fires first exactly
when it is pending and the gap exceeds the timeout, then the event is
registered. -/
def stepGap (powermodeThreshold timeoutMs g : Nat) (s : ComboState) :
    ComboState :=
  registerEvent powermodeThreshold
    (if s.timerPending && decide (timeoutMs < g) then comboTimeoutCallback s
     else s)

/-- A sequence of timed qualifying events given by their gaps. -/
def runGaps (powermodeThreshold timeoutMs : Nat) (gaps : List Nat)
    (s : ComboState) : ComboState :=
  gaps.foldl (fun s g => stepGap powermodeThreshold timeoutMs g s) s

/-- The ridiculousCoding settings snapshot held by RidiculousTracker. -/
structure Settings where
  explosions : Bool
  blips : Bool
  chars : Bool
  shake : Bool
  shakeAmplitude : Int
  shakeDecayMs : Int
  sound : Bool
  fireworks : Bool
  baseXp : Int
  enableStatusBar : Bool
  reducedEffects : Bool
deriving DecidableEq, Repr

/-- The configuration defaults the constructor reads. -/
def defaultSettings : Settings :=
  { explosions := true, blips := true, chars := true, shake := true,
    shakeAmplitude := 6, shakeDecayMs := 120, sound := true,
    fireworks := true, baseXp := 50, enableStatusBar := true,
    reducedEffects := false }

/-- One text-document change on the active editor: the inserted text, the
removed range length, and the scheme of the active document URI (strings
embedded as character lists). -/
structure ChangeEvent where
  insertedText : List Char
  removedLength : Nat
  scheme : List Char
deriving DecidableEq, Repr

/-- Outbound side-effect intents of RidiculousTracker; the EffectManager
call and the webview post of the same kind are collapsed into one intent. -/
inductive Intent where
  | blip (pitch : ℚ) (enabled : Bool)
  | boom (enabled : Bool)
  | fireworks (enabled : Bool)
  | newline
deriving DecidableEq, Repr

/-- RidiculousTracker state relevant to text-change handling: the pitch
accumulator, whether its 180 ms single-shot reset timer is armed, the
one-time panel-reveal flag, and the XPService state. -/
structure RState where
  pitchIncrease : Nat
  pitchTimerPending : Bool
  revealedForSound : Bool
  xp : XPState
deriving DecidableEq, Repr

/-- A freshly constructed RidiculousTracker over empty storage. -/
def RState.init (baseXp : Int) : RState :=
  { pitchIncrease := 0, pitchTimerPending := false,
    revealedForSound := false, xp := XPState.fresh baseXp }

/-- The PITCH_RESET_MS constant of RidiculousTracker. -/
def PITCH_RESET_MS : Nat := 180

/-- RidiculousTracker.handleTextDocumentChange for a change on the active
editor's document. An insert with blips on and reduced effects off bumps
the pitch accumulator, rearms its reset timer, emits a blip whose pitch is
1.0 + min(20, accumulator) * 0.05, grants 1 xp and emits fireworks on a
level-up; a bare insert only grants xp; a delete with explosions on and
reduced effects off emits a boom; finally, an inserted line separator with
blips on and reduced effects off emits a newline intent. The function
performs no read-only check on the scheme. -/
def handleTextDocumentChange (st : Settings) (s : RState) (e : ChangeEvent) :
    RState × List Intent :=
  let isInsert := decide (0 < e.insertedText.length)
  let isDelete := !isInsert && decide (0 < e.removedLength)
  let main :=
    if isInsert && st.blips && !st.reducedEffects then
      let revealed := s.revealedForSound || st.sound
      let pitchInc := s.pitchIncrease + 1
      let pitch : ℚ := 1 + ((min 20 pitchInc : Nat) : ℚ) * (5 / 100)
      let res := s.xp.addXp 1
      let fw :=
        if res.2 && st.fireworks && !st.reducedEffects then
          [Intent.fireworks (st.sound && !st.reducedEffects)]
        else []
      ({ pitchIncrease := pitchInc, pitchTimerPending := true,
         revealedForSound := revealed, xp := res.1 },
       Intent.blip pitch (st.sound && !st.reducedEffects) :: fw)
    else if isInsert then
      ({ s with xp := (s.xp.addXp 1).1 }, [])
    else if isDelete && st.explosions && !st.reducedEffects then
      (s, [Intent.boom (st.sound && !st.reducedEffects)])
    else (s, [])
  let nl :=
    if st.blips && e.insertedText.contains (Char.ofNat 10)
        && !st.reducedEffects then
      [Intent.newline]
    else []
  (main.1, main.2 ++ nl)

/-- A text-change arriving g milliseconds after the previous one: the
armed pitch-reset timer fires first exactly when the gap exceeds
PITCH_RESET_MS, zeroing the accumulator. -/
def timedChange (st : Settings) (g : Nat) (s : RState) (e : ChangeEvent) :
    RState × List Intent :=
  handleTextDocumentChange st
    (if s.pitchTimerPending && decide (PITCH_RESET_MS < g) then
       { s with pitchIncrease := 0, pitchTimerPending := false }
     else s) e

/-- A one-character insert on an ordinary file editor. -/
def insertEventA : ChangeEvent :=
  { insertedText := ['a'], removedLength := 0, scheme := "file".toList }

/-- k untimed inserts; the pair carries the intents of the latest insert. -/
def iterPlainInserts (st : Settings) :
    Nat → RState × List Intent → RState × List Intent
  | 0, p => p
  | k + 1, p =>
      iterPlainInserts st k (handleTextDocumentChange st p.1 insertEventA)

/-- One insert from the fresh state followed by one insert per listed gap;
the returned intents are those of the last insert. -/
def runTimedInserts (st : Settings) (gs : List Nat) : RState × List Intent :=
  gs.foldl (fun acc g => timedChange st g acc.1 insertEventA)
    (handleTextDocumentChange st (RState.init st.baseXp) insertEventA)

/-- NativeSoundPlayer.play's selection of the blip pitch variant: for a
pitch above 1.0, Math.round((pitch - 1) / 0.05) clamped to 20 names the
variant; index 0 is the base blip sound. -/
def blipVariantIndex (pitch : ℚ) : Int :=
  if 1 < pitch then
    if 20 ≤ jsRound ((pitch - 1) / (5 / 100)) then 20
    else if 0 < jsRound ((pitch - 1) / (5 / 100)) then
      jsRound ((pitch - 1) / (5 / 100))
    else 0
  else 0

/-- registerEvent always increments the combo by one. -/
theorem registerEvent_count (th : Nat) (s : ComboState) :
    (registerEvent th s).currentCombo = s.currentCombo + 1 := by
  unfold registerEvent
  split <;> rfl

/-- registerEvent always leaves a pending decay timer. -/
theorem registerEvent_pending (th : Nat) (s : ComboState) :
    (registerEvent th s).timerPending = true := by
  unfold registerEvent
  split <;> rfl

/-- registerEvent never deactivates power mode. -/
theorem registerEvent_active_of_active (th : Nat) (s : ComboState)
    (h : s.isPowermodeActive = true) :
    (registerEvent th s).isPowermodeActive = true := by
  unfold registerEvent
  simp [h]

/-- Invariant of all reachable ComboTracker states: the combo is zero
exactly when no timer is pending, an active power mode forces a nonzero
combo, and an inactive power mode forces a cleared activation combo. -/
theorem comboReach_invariant {th : Nat} {s : ComboState}
    (h : ComboReach th s) :
    (s.currentCombo = 0 ↔ s.timerPending = false) ∧
    (s.isPowermodeActive = true → s.currentCombo ≠ 0) ∧
    (s.isPowermodeActive = false → s.initialPowermodeCombo = 0) := by
  induction h with
  | init => simp [comboInit]
  | @event s h ih =>
      obtain ⟨ih1, ih2, ih3⟩ := ih
      unfold registerEvent
      split
      next hcond => exact ⟨by simp, fun _ => by simp, by simp⟩
      next hcond => exact ⟨by simp, fun _ => by simp, ih3⟩
  | @timeout s h hp ih =>
      obtain ⟨ih1, ih2, ih3⟩ := ih
      unfold comboTimeoutCallback
      split
      next hact => exact ⟨by simp, by simp, fun _ => rfl⟩
      next hact =>
          refine ⟨by simp, ?_, fun _ => ih3 ?_⟩
          · intro hA
            exact absurd hA hact
          · cases hB : s.isPowermodeActive
            · rfl
            · exact absurd hB hact

/-- After k events from the initial state (threshold at least 1): the combo
is k, power mode is active exactly once k reached the threshold, and the
recorded activation combo is the threshold itself (the count at the first
event that reached it) while active, 0 before. -/
theorem runEvents_spec (th : Nat) (hth : 1 ≤ th) (k : Nat) :
    (runEvents th k).currentCombo = k ∧
    ((runEvents th k).isPowermodeActive = true ↔ th ≤ k) ∧
    (runEvents th k).initialPowermodeCombo = (if th ≤ k then th else 0) := by
  induction k with
  | zero =>
      have h0 : ¬ th ≤ 0 := by omega
      simp [runEvents, comboInit, h0]
  | succ k ih =>
      obtain ⟨ihc, iha, ihs⟩ := ih
      have hrun : runEvents th (k + 1) = registerEvent th (runEvents th k) := rfl
      rw [hrun]
      unfold registerEvent
      rw [ihc, ihs]
      cases hA : (runEvents th k).isPowermodeActive
      · have hnk : ¬ th ≤ k := by
          intro hh
          rw [iha.mpr hh] at hA
          exact Bool.noConfusion hA
        by_cases hk1 : th ≤ k + 1
        · have hthk : th = k + 1 := by omega
          simp [hk1, hnk, hthk]
        · simp [hk1, hnk]
      · have hk : th ≤ k := iha.mp hA
        have hk1 : th ≤ k + 1 := by omega
        simp [hk, hk1]

/-- When no gap exceeds the timeout, every timed event adds exactly one to
the combo. -/
theorem runGaps_count (th T : Nat) (gs : List Nat) :
    ∀ s : ComboState, (∀ g ∈ gs, g ≤ T) →
      (runGaps th T gs s).currentCombo = s.currentCombo + gs.length := by
  induction gs with
  | nil => intro s _; simp [runGaps]
  | cons g gs ih =>
      intro s hg
      have hgT : ¬ T < g := by
        have := hg g (by simp)
        omega
      have hrest : ∀ x ∈ gs, x ≤ T := fun x hx => hg x (by simp [hx])
      have hstep : (stepGap th T g s).currentCombo = s.currentCombo + 1 := by
        unfold stepGap
        simp [hgT, registerEvent_count]
      have hfold :
          runGaps th T (g :: gs) s = runGaps th T gs (stepGap th T g s) := rfl
      rw [hfold, ih (stepGap th T g s) hrest, hstep]
      simp
      omega

/-- A timed change whose gap does not exceed the reset delay behaves as an
untimed one: the pitch reset cannot fire. -/
theorem timedChange_of_small_gap (st : Settings) (g : Nat) (s : RState)
    (e : ChangeEvent) (hg : g ≤ PITCH_RESET_MS) :
    timedChange st g s e = handleTextDocumentChange st s e := by
  unfold timedChange
  have h : ¬ PITCH_RESET_MS < g := by omega
  simp [h]

/-- When no gap exceeds the reset delay, the timed fold is a plain
iteration of the handler. -/
theorem foldTimed_eq_plain (st : Settings) :
    ∀ (gs : List Nat) (p : RState × List Intent),
      (∀ g ∈ gs, g ≤ PITCH_RESET_MS) →
      gs.foldl (fun acc g => timedChange st g acc.1 insertEventA) p
        = iterPlainInserts st gs.length p := by
  intro gs
  induction gs with
  | nil => intro p _; rfl
  | cons g gs ih =>
      intro p hg
      have h1 : g ≤ PITCH_RESET_MS := hg g (by simp)
      have h2 : ∀ x ∈ gs, x ≤ PITCH_RESET_MS := fun x hx => hg x (by simp [hx])
      have hfold :
          (g :: gs).foldl (fun acc x => timedChange st x acc.1 insertEventA) p
            = gs.foldl (fun acc x => timedChange st x acc.1 insertEventA)
                (timedChange st g p.1 insertEventA) := rfl
      rw [hfold, ih _ h2, timedChange_of_small_gap st g p.1 insertEventA h1]
      rfl

/-- The intents returned after k+1 plain inserts are those of the last
insert, applied to the state after k inserts. -/
theorem iterPlain_snd_succ (st : Settings) (k : Nat)
    (p : RState × List Intent) :
    (iterPlainInserts st (k + 1) p).2
      = (handleTextDocumentChange st (iterPlainInserts st k p).1
          insertEventA).2 := by
  induction k generalizing p with
  | zero => rfl
  | succ k ih => exact ih (handleTextDocumentChange st p.1 insertEventA)

/-- Claim C1, counterexample: from the fresh baseXp = 50 state, one hundred
addXp 1 calls leave xpNextAbs at 200 = 100 + round(50*2/10)*10, not at the
110 the claim states. -/
theorem c1_counterexample :
    ((XPState.fresh 50).addXpTimes 100).1.xpNextAbs = 200 ∧
    ¬ ((XPState.fresh 50).addXpTimes 100).1.xpNextAbs = 110 := by
  decide

/-- Claim C1, amended: after the 100th addXp 1 call from the fresh
baseXp = 50 state, leveledUp is true, the level is 2, xp is 100 and the
next absolute threshold is 200. -/
theorem c1_scenario_amended :
    ((XPState.fresh 50).addXpTimes 100).2 = true ∧
    ((XPState.fresh 50).addXpTimes 100).1.level = 2 ∧
    ((XPState.fresh 50).addXpTimes 100).1.xp = 100 ∧
    ((XPState.fresh 50).addXpTimes 100).1.xpNextAbs = 200 := by
  decide

/-- Claim C2: addXp increases xp by n; it returns true exactly when the
post-increment xp reaches the threshold; on a level-up the level rises by
one, xpLevelStart becomes the new xp and the threshold becomes
xp + round(baseXp * level / 10) * 10 with the incremented level; otherwise
level, threshold and level start are untouched. -/
theorem c2_addXp_contract (s : XPState) (n : Int) :
    (s.addXp n).1.xp = s.xp + n ∧
    ((s.addXp n).2 = true ↔ s.xpNextAbs ≤ s.xp + n) ∧
    ((s.addXp n).2 = true →
      (s.addXp n).1.level = s.level + 1 ∧
      (s.addXp n).1.xpLevelStart = s.xp + n ∧
      (s.addXp n).1.xpNextAbs
        = (s.xp + n) + jsRoundDiv10 (s.baseXp * (s.level + 1)) * 10) ∧
    ((s.addXp n).2 = false →
      (s.addXp n).1.level = s.level ∧
      (s.addXp n).1.xpNextAbs = s.xpNextAbs ∧
      (s.addXp n).1.xpLevelStart = s.xpLevelStart) := by
  unfold XPState.addXp
  by_cases h : s.xpNextAbs ≤ s.xp + n <;> simp [h]

/-- Claim C5, counterexample: addXp accepts a negative argument unclamped;
from the fresh baseXp = 50 state, addXp (-1) strictly decreases xp and
leaves it negative. -/
theorem c5_counterexample :
    ¬ ((XPState.fresh 50).xp ≤ ((XPState.fresh 50).addXp (-1)).1.xp) ∧
    ((XPState.fresh 50).addXp (-1)).1.xp < 0 := by
  decide

/-- Claim C5, amended: for every nonnegative n, addXp never decreases xp,
and from a nonnegative xp the result stays nonnegative. -/
theorem c5_addXp_monotone (s : XPState) (n : Int) (hn : 0 ≤ n) :
    s.xp ≤ (s.addXp n).1.xp ∧ (0 ≤ s.xp → 0 ≤ (s.addXp n).1.xp) := by
  unfold XPState.addXp
  by_cases h : s.xpNextAbs ≤ s.xp + n <;> simp [h] <;> constructor <;> omega

/-- Witness for c5_addXp_monotone at the fresh baseXp = 50 state and n = 3. -/
theorem c5_addXp_monotone_witness :
    (0 : Int) ≤ 3 ∧
    ((XPState.fresh 50).xp ≤ ((XPState.fresh 50).addXp 3).1.xp ∧
      (0 ≤ (XPState.fresh 50).xp → 0 ≤ ((XPState.fresh 50).addXp 3).1.xp)) :=
  ⟨by decide, c5_addXp_monotone (XPState.fresh 50) 3 (by decide)⟩

/-- Claim C10: one addXp call moves the level up by at most one; even in a
state whose recomputed target is immediately met again (baseXp 0, target
equal to xp), a single call that lands at or above the new target still
raises the level exactly once. -/
theorem c10_at_most_one_level (s : XPState) (n : Int) :
    (s.level ≤ (s.addXp n).1.level ∧ (s.addXp n).1.level ≤ s.level + 1) ∧
    ((zeroBaseXPState.addXp 5).1.level = 2 ∧
      (zeroBaseXPState.addXp 5).1.xpNextAbs ≤ (zeroBaseXPState.addXp 5).1.xp) := by
  constructor
  · unfold XPState.addXp
    by_cases h : s.xpNextAbs ≤ s.xp + n <;> simp [h]
  · decide

/-- Claim C3, counterexample: after a single qualifying event (threshold
10, as configured), the combo is 1 and a timer is pending while power mode
is still inactive, so the three conditions are not pairwise equivalent. -/
theorem c3_counterexample :
    ComboReach 10 (registerEvent 10 comboInit) ∧
    ¬ (((registerEvent 10 comboInit).currentCombo = 0) ↔
        ((registerEvent 10 comboInit).isPowermodeActive = false)) :=
  ⟨ComboReach.event ComboReach.init, by decide⟩

/-- Claim C3, amended: in every reachable ComboTracker state, the combo is
zero exactly when no decay timer is pending, and a zero combo forces power
mode to be inactive (the converse direction fails below the threshold). -/
theorem c3_invariant_amended {th : Nat} {s : ComboState}
    (h : ComboReach th s) :
    (s.currentCombo = 0 ↔ s.timerPending = false) ∧
    (s.currentCombo = 0 → s.isPowermodeActive = false) := by
  obtain ⟨h1, h2, -⟩ := comboReach_invariant h
  refine ⟨h1, fun hc => ?_⟩
  cases hA : s.isPowermodeActive with
  | false => rfl
  | true => exact absurd hc (h2 hA)

/-- Witness for c3_invariant_amended at the initial state. -/
theorem c3_invariant_amended_witness :
    (comboInit.currentCombo = 0 ↔ comboInit.timerPending = false) ∧
    (comboInit.currentCombo = 0 → comboInit.isPowermodeActive = false) :=
  c3_invariant_amended (show ComboReach 10 comboInit from ComboReach.init)

/-- Claim C6: with a positive threshold, power mode is active after k
events exactly when k reached the threshold (so it turns on precisely at
the event where the combo first reaches it), the recorded activation combo
equals the combo at that activation, a qualifying event never deactivates
power mode, and the decay-timer callback always deactivates it and resets
the combo. -/
theorem c6_powermode_lifecycle (th k : Nat) (s : ComboState)
    (hth : 1 ≤ th) :
    ((runEvents th k).isPowermodeActive = true ↔ th ≤ k) ∧
    ((runEvents th k).initialPowermodeCombo = if th ≤ k then th else 0) ∧
    (s.isPowermodeActive = true →
      (registerEvent th s).isPowermodeActive = true) ∧
    (comboTimeoutCallback s).isPowermodeActive = false ∧
    (comboTimeoutCallback s).currentCombo = 0 := by
  refine ⟨(runEvents_spec th hth k).2.1, (runEvents_spec th hth k).2.2,
    registerEvent_active_of_active th s, ?_, ?_⟩
  · cases h : s.isPowermodeActive <;> simp [comboTimeoutCallback, h]
  · cases h : s.isPowermodeActive <;> simp [comboTimeoutCallback, h]

/-- Witness for c6_powermode_lifecycle at threshold 2 after 3 events. -/
theorem c6_powermode_lifecycle_witness :
    1 ≤ 2 ∧
    (((runEvents 2 3).isPowermodeActive = true ↔ 2 ≤ 3) ∧
     ((runEvents 2 3).initialPowermodeCombo = if 2 ≤ 3 then 2 else 0) ∧
     (comboInit.isPowermodeActive = true →
       (registerEvent 2 comboInit).isPowermodeActive = true) ∧
     (comboTimeoutCallback comboInit).isPowermodeActive = false ∧
     (comboTimeoutCallback comboInit).currentCombo = 0) :=
  ⟨by decide, c6_powermode_lifecycle 2 3 comboInit (by decide)⟩

/-- Claim C7: for every sequence of qualifying events in which no gap
exceeds the combo timeout, the final combo equals the number of events. -/
theorem c7_combo_counts_events (th T : Nat) (gs : List Nat)
    (h : ∀ g ∈ gs, g ≤ T) :
    (runGaps th T gs comboInit).currentCombo = gs.length := by
  simpa [comboInit] using runGaps_count th T gs comboInit h

/-- Witness for c7_combo_counts_events with three events and timeout 5000 ms. -/
theorem c7_combo_counts_events_witness :
    (∀ g ∈ [0, 100, 200], g ≤ 5000) ∧
    (runGaps 10 5000 [0, 100, 200] comboInit).currentCombo
      = [0, 100, 200].length :=
  ⟨by decide, c7_combo_counts_events 10 5000 [0, 100, 200] (by decide)⟩

/-- Claim C9: the combo stop performed by the decay callback is idempotent:
a second application changes nothing, and after one application the combo
is 0, power mode is inactive, no timer is pending, and (when power mode had
been active) the recorded activation combo is cleared. -/
theorem c9_stop_idempotent (s : ComboState) :
    comboTimeoutCallback (comboTimeoutCallback s) = comboTimeoutCallback s ∧
    (comboTimeoutCallback s).currentCombo = 0 ∧
    (comboTimeoutCallback s).isPowermodeActive = false ∧
    (comboTimeoutCallback s).timerPending = false ∧
    (s.isPowermodeActive = true →
      (comboTimeoutCallback s).initialPowermodeCombo = 0) := by
  cases h : s.isPowermodeActive <;> simp [comboTimeoutCallback, h]

/-- Claim C4, counterexample: the XP/effects tracker performs no read-only
check. On the read-only output scheme, a pure delete still emits a boom
intent, and an insert still mutates the xp counter. -/
theorem c4_counterexample :
    isReadOnlyScheme "output".toList = true ∧
    (handleTextDocumentChange defaultSettings (RState.init 50)
        { insertedText := [], removedLength := 1,
          scheme := "output".toList }).2 = [Intent.boom true] ∧
    (handleTextDocumentChange defaultSettings (RState.init 50)
        { insertedText := ['a'], removedLength := 0,
          scheme := "output".toList }).1.xp.xp
      = (RState.init 50).xp.xp + 1 := by
  decide

/-- Claim C4, amended: the combo tracker ignores events whose active
document scheme is read-only entirely: its state is unchanged and the
meter receives no calls. (The XP/effects tracker has no such check, as the
counterexample shows.) -/
theorem c4_readonly_ignored_by_combo (th : Nat) (scheme : List Char)
    (s : ComboState) (h : isReadOnlyScheme scheme = true) :
    handleTextChange th scheme s = (s, []) := by
  unfold handleTextChange
  simp [h]

/-- Witness for c4_readonly_ignored_by_combo on the output panel scheme. -/
theorem c4_readonly_ignored_by_combo_witness :
    isReadOnlyScheme "output".toList = true ∧
    handleTextChange 10 "output".toList comboInit = (comboInit, []) :=
  ⟨by decide,
   c4_readonly_ignored_by_combo 10 "output".toList comboInit (by decide)⟩

/-- Claim C8: a qualifying insert (blips on, reduced effects off) raises
the pitch accumulator by exactly 1 and emits a blip whose pitch is
1.0 + min(20, accumulator) * 0.05; a gap above 180 ms with the reset timer
armed zeroes the accumulator before the event is handled; and after 21
consecutive inserts with every gap at most 180 ms, the 21st blip has pitch
exactly 2.0 and maps to sound variant index 20. -/
theorem c8_pitch_accumulator (st : Settings) (s : RState) (e : ChangeEvent)
    (g : Nat) (gs : List Nat)
    (hb : st.blips = true) (hr : st.reducedEffects = false)
    (hi : 0 < e.insertedText.length)
    (hlen : gs.length = 20) (hgs : ∀ x ∈ gs, x ≤ 180) :
    ((handleTextDocumentChange st s e).1.pitchIncrease
      = s.pitchIncrease + 1) ∧
    (Intent.blip (1 + ((min 20 (s.pitchIncrease + 1) : Nat) : ℚ) * (5 / 100))
        (st.sound && !st.reducedEffects)
      ∈ (handleTextDocumentChange st s e).2) ∧
    (s.pitchTimerPending = true → PITCH_RESET_MS < g →
      timedChange st g s e
        = handleTextDocumentChange st
            { s with pitchIncrease := 0, pitchTimerPending := false } e) ∧
    ((runTimedInserts defaultSettings gs).2 = [Intent.blip 2 true]) ∧
    blipVariantIndex 2 = 20 := by
  refine ⟨?_, ?_, ?_, ?_, ?_⟩
  · simp [handleTextDocumentChange, hb, hr, hi]
  · simp [handleTextDocumentChange, hb, hr, hi]
  · intro hp hg
    unfold timedChange
    simp [hp, hg]
  · have hrw : runTimedInserts defaultSettings gs
        = iterPlainInserts defaultSettings gs.length
            (handleTextDocumentChange defaultSettings
              (RState.init defaultSettings.baseXp) insertEventA) :=
      foldTimed_eq_plain defaultSettings gs _ (fun x hx => hgs x hx)
    rw [hrw, hlen]
    rw [show (20 : Nat) = 19 + 1 from rfl, iterPlain_snd_succ]
    have hs : (iterPlainInserts defaultSettings 19
        (handleTextDocumentChange defaultSettings
          (RState.init defaultSettings.baseXp) insertEventA)).1
        = { pitchIncrease := 20, pitchTimerPending := true,
            revealedForSound := true,
            xp := { baseXp := 50, xp := 20, level := 1, xpNextAbs := 100,
                    xpLevelStart := 0 } } := by decide
    rw [hs]
    simp [handleTextDocumentChange, XPState.addXp, insertEventA,
      defaultSettings]
    norm_num
  · norm_num [blipVariantIndex, jsRound]

/-- Witness for c8_pitch_accumulator: default settings, the fresh state, a
plain insert, a 200 ms gap and twenty zero gaps. -/
theorem c8_pitch_accumulator_witness :
    (defaultSettings.blips = true ∧ defaultSettings.reducedEffects = false ∧
     0 < insertEventA.insertedText.length ∧
     (List.replicate 20 0).length = 20 ∧
     (∀ x ∈ List.replicate 20 0, x ≤ 180)) ∧
    (((handleTextDocumentChange defaultSettings (RState.init 50)
        insertEventA).1.pitchIncrease = (RState.init 50).pitchIncrease + 1) ∧
     (Intent.blip
        (1 + ((min 20 ((RState.init 50).pitchIncrease + 1) : Nat) : ℚ)
          * (5 / 100))
        (defaultSettings.sound && !defaultSettings.reducedEffects)
       ∈ (handleTextDocumentChange defaultSettings (RState.init 50)
            insertEventA).2) ∧
     ((RState.init 50).pitchTimerPending = true → PITCH_RESET_MS < 200 →
       timedChange defaultSettings 200 (RState.init 50) insertEventA
         = handleTextDocumentChange defaultSettings
             { (RState.init 50) with pitchIncrease := 0, pitchTimerPending := false } insertEventA) ∧
     ((runTimedInserts defaultSettings (List.replicate 20 0)).2
        = [Intent.blip 2 true]) ∧
     blipVariantIndex 2 = 20) :=
  ⟨⟨rfl, rfl, by decide, by decide, by decide⟩,
   c8_pitch_accumulator defaultSettings (RState.init 50) insertEventA 200
     (List.replicate 20 0) rfl rfl (by decide) (by decide) (by decide)⟩
